import Mathlib

/-!
Verification development for the devbox state-change engine.

This file gives a shallow embedding of the devbox repository (Python) into
Lean 4 and proves or refutes the specified properties of its state-change
abstraction: the `ChangeStatus`/`ChangeResult` outcome taxonomy
(`src/devbox/change_status.py`, `src/devbox/change_result.py`), the
`ChangeEngine` orchestration loop (`src/devbox/change_engine.py`), the
`StateChanger` parent/path hierarchy (`src/devbox/state_changer.py`), the
concrete changers `CreateOrReplaceFile` and `HomeBrew` together with the
composite wrappers `K9s` and `ClaudeCode`
(`src/devbox/state_changers/`), and the CLI command handlers
(`src/main.py`).

External effects are modelled explicitly: the filesystem as a map from
path strings to optional contents plus a writability predicate, and
subprocess execution as a map from command lines to an optional exit
result (`none` modelling a failure to launch the process at all).
Fallible operations return `Except`; a Python exception that a function
does not catch shows up as an `Except.error` escaping that function.
-/

namespace DevBox

/-- `ChangeStatus` from `src/devbox/change_status.py`: the closed
three-way outcome taxonomy. -/
inductive ChangeStatus where
  | SUCCESS
  | FAILED
  | WARN
deriving DecidableEq, Repr

/-- `ChangeResult` from `src/devbox/change_result.py`: an immutable
status/message pair produced by every change or rollback invocation. -/
structure ChangeResult where
  status : ChangeStatus
  message : String
deriving DecidableEq, Repr

/-- The `StateChanger` operations as the `ChangeEngine` consumes them,
for changers whose methods return normally (no escaping exception): a
state-transformer view over an external world `σ`.  `is_changed` is
side-effect-free per the contract; `change` and `rollback` return a
`ChangeResult` and the mutated world. -/
structure Changer (σ : Type) where
  is_changed : σ → Bool
  change : σ → ChangeResult × σ
  rollback : σ → ChangeResult × σ

/-- The three counters accumulated by `ChangeEngine.apply_changes`
(`success_count`, `failed_count`, `skipped_count` in the source). -/
structure Counts where
  success : Nat
  failed : Nat
  skipped : Nat
deriving DecidableEq, Repr

/-- The loop body of `ChangeEngine.apply_changes`
(`src/devbox/change_engine.py`, lines 45 to 59), threading the three
counters: if `is_changed()` the changer is skipped, otherwise `change`
is invoked and only a `SUCCESS` or `FAILED` status increments a counter;
a `WARN` status from `change` increments none of the three. -/
def applyChangesAux {σ : Type} : List (Changer σ) → σ → Nat → Nat → Nat → Counts × σ
  | [], s, a, b, c => (⟨a, b, c⟩, s)
  | ch :: rest, s, a, b, c =>
    if ch.is_changed s then
      applyChangesAux rest s a b (c + 1)
    else
      match (ch.change s).1.status with
      | ChangeStatus.SUCCESS => applyChangesAux rest (ch.change s).2 (a + 1) b c
      | ChangeStatus.FAILED => applyChangesAux rest (ch.change s).2 a (b + 1) c
      | ChangeStatus.WARN => applyChangesAux rest (ch.change s).2 a b c

/-- `ChangeEngine.apply_changes`: run every registered changer in order
starting from zeroed counters, returning the final counters and world. -/
def apply_changes {σ : Type} (cs : List (Changer σ)) (s : σ) : Counts × σ :=
  applyChangesAux cs s 0 0 0

/-- What `apply_changes` did with one changer: either it was skipped
(`is_changed()` returned true) or its `change` was executed, returning
the recorded result. -/
inductive Event where
  | skipped
  | executed (r : ChangeResult)
deriving DecidableEq, Repr

/-- One iteration of the `apply_changes` loop, as an event: skip when
already changed, otherwise invoke `change` and record its result. -/
def applyStep {σ : Type} (c : Changer σ) (s : σ) : Event × σ :=
  if c.is_changed s then (Event.skipped, s)
  else (Event.executed (c.change s).1, (c.change s).2)

/-- The `apply_changes` loop instrumented to record, per registered
changer in order, the event that processed it.  Same control flow as
`applyChangesAux`; it records events instead of counting them. -/
def applyTrace {σ : Type} : List (Changer σ) → σ → List Event × σ
  | [], s => ([], s)
  | c :: cs, s =>
    ((applyStep c s).1 :: (applyTrace cs (applyStep c s).2).1,
      (applyTrace cs (applyStep c s).2).2)

/-- The world state the `apply_changes` loop has reached just before it
processes the changer at position `j`. -/
def stateBefore {σ : Type} (cs : List (Changer σ)) (s : σ) (j : Nat) : σ :=
  (applyTrace (cs.take j) s).2

/-- The number of changers whose executed `change` returned a `WARN`
status during this `apply_changes` run; the engine increments no counter
for these. -/
def warnCount {σ : Type} : List (Changer σ) → σ → Nat
  | [], _ => 0
  | ch :: rest, s =>
    if ch.is_changed s then warnCount rest s
    else
      (if (ch.change s).1.status = ChangeStatus.WARN then 1 else 0) +
        warnCount rest (ch.change s).2

lemma applyChangesAux_counts {σ : Type} (cs : List (Changer σ)) :
    ∀ (s : σ) (a b c : Nat),
      (applyChangesAux cs s a b c).1.success + (applyChangesAux cs s a b c).1.failed +
        (applyChangesAux cs s a b c).1.skipped + warnCount cs s = a + b + c + cs.length := by
  induction cs with
  | nil =>
    intro s a b c
    simp [applyChangesAux, warnCount]
  | cons ch rest ih =>
    intro s a b c
    cases hic : ch.is_changed s with
    | true =>
      simp only [applyChangesAux, warnCount, hic, if_true, List.length_cons]
      have := ih s a b (c + 1)
      omega
    | false =>
      simp only [applyChangesAux, warnCount, hic, Bool.false_eq_true, if_false,
        List.length_cons]
      cases hst : (ch.change s).1.status with
      | SUCCESS =>
        simp only [hst, reduceCtorEq, if_false]
        have := ih (ch.change s).2 (a + 1) b c
        omega
      | FAILED =>
        simp only [hst, reduceCtorEq, if_false]
        have := ih (ch.change s).2 a (b + 1) c
        omega
      | WARN =>
        simp only [hst, if_true]
        have := ih (ch.change s).2 a b c
        omega

lemma applyTrace_length {σ : Type} (cs : List (Changer σ)) (s : σ) :
    (applyTrace cs s).1.length = cs.length := by
  induction cs generalizing s with
  | nil => simp [applyTrace]
  | cons c cs ih => simp [applyTrace, ih]

lemma applyTrace_get? {σ : Type} (cs : List (Changer σ)) (s : σ) (j : Nat) :
    (applyTrace cs s).1.get? j =
      (cs.get? j).map (fun c => (applyStep c (stateBefore cs s j)).1) := by
  induction cs generalizing s j with
  | nil => simp [applyTrace]
  | cons c cs ih =>
    cases j with
    | zero =>
      simp [applyTrace, stateBefore]
    | succ j =>
      simp only [applyTrace, List.get?_cons_succ, stateBefore, List.take_succ_cons]
      simpa [stateBefore] using ih (applyStep c s).2 j

/-- C1 (amended): after `apply_changes`, the counts satisfy
`succeeded + failed + skipped + warned == total registered changers`,
where `warned` is the number of executed changers whose `change`
returned `WARN` — the engine increments no counter for a `WARN` result,
so the plain three-way sum equals the total only when no executed
changer returns `WARN`. -/
theorem C1_counts_invariant_amended {σ : Type} (cs : List (Changer σ)) (s : σ) :
    (apply_changes cs s).1.success + (apply_changes cs s).1.failed +
      (apply_changes cs s).1.skipped + warnCount cs s = cs.length := by
  have h := applyChangesAux_counts cs s 0 0 0
  simpa [apply_changes] using h

/-- A changer that is never already applied and whose `change` reports a
`WARN` (partially applied) result, as the `ChangeStatus` taxonomy
permits. -/
def warnOnlyChanger : Changer Unit where
  is_changed := fun _ => false
  change := fun s => (⟨ChangeStatus.WARN, "partially applied"⟩, s)
  rollback := fun s => (⟨ChangeStatus.WARN, "nothing to roll back"⟩, s)

/-- C1 is false as stated: with a single registered changer whose
`change` returns a `WARN` result, `apply_changes` reports
`succeeded + failed + skipped = 0`, not the registered total `1`. -/
theorem C1_warn_breaks_counts :
    ¬ ((apply_changes [warnOnlyChanger] ()).1.success +
        (apply_changes [warnOnlyChanger] ()).1.failed +
        (apply_changes [warnOnlyChanger] ()).1.skipped =
          [warnOnlyChanger].length) := by
  decide

/-- C5: a `FAILED` result never stops the `apply_changes` run — if the
changer at position `i` was executed and returned a `FAILED` result,
then every later position `j` is still processed: the recorded trace has
an entry for `j`, and that entry is exactly the processing of changer
`j` (its `is_changed` check and, when not yet applied, its `change`
invocation) at the world state the loop threaded to position `j`. -/
theorem C5_failed_does_not_halt {σ : Type} (cs : List (Changer σ)) (s : σ)
    (i j : Nat) (m : String) (hj : j < cs.length) (hij : i < j)
    (hi : (applyTrace cs s).1.get? i = some (Event.executed ⟨ChangeStatus.FAILED, m⟩)) :
    (applyTrace cs s).1.length = cs.length ∧
      (applyTrace cs s).1.get? j =
        (cs.get? j).map (fun c => (applyStep c (stateBefore cs s j)).1) :=
  ⟨applyTrace_length cs s, applyTrace_get? cs s j⟩

/-- A changer whose `change` always fails. -/
def alwaysFailChanger : Changer Unit where
  is_changed := fun _ => false
  change := fun s => (⟨ChangeStatus.FAILED, "boom"⟩, s)
  rollback := fun s => (⟨ChangeStatus.WARN, "nothing to roll back"⟩, s)

/-- A changer whose `change` always succeeds. -/
def alwaysOkChanger : Changer Unit where
  is_changed := fun _ => false
  change := fun s => (⟨ChangeStatus.SUCCESS, "done"⟩, s)
  rollback := fun s => (⟨ChangeStatus.WARN, "nothing to roll back"⟩, s)

/-- Witness for C5: with a failing changer at position 0 and another
changer at position 1, position 1 is still processed. -/
theorem C5_failed_does_not_halt_witness :
    (applyTrace [alwaysFailChanger, alwaysOkChanger] ()).1.length =
        [alwaysFailChanger, alwaysOkChanger].length ∧
      (applyTrace [alwaysFailChanger, alwaysOkChanger] ()).1.get? 1 =
        ([alwaysFailChanger, alwaysOkChanger].get? 1).map
          (fun c => (applyStep c (stateBefore [alwaysFailChanger, alwaysOkChanger] () 1)).1) :=
  C5_failed_does_not_halt [alwaysFailChanger, alwaysOkChanger] () 0 1 "boom"
    (by decide) (by decide) (by decide)

/-- Python exceptions relevant to the modelled operations. -/
inductive PyErr where
  | permissionError (path : String)
  | fileNotFoundError (path : String)
deriving DecidableEq, Repr

/-- The filesystem as the changers observe it: the optional contents of
each path, plus whether writing (or unlinking) at a path is permitted —
a write at a non-writable path raises `PermissionError`. -/
structure FileSystem where
  contents : String → Option String
  writable : String → Bool

/-- `Path.exists()`. -/
def pathExists (fs : FileSystem) (p : String) : Bool :=
  (fs.contents p).isSome

/-- `Path.read_text()`: raises `FileNotFoundError` when the file is
absent. -/
def readText (fs : FileSystem) (p : String) : Except PyErr String :=
  match fs.contents p with
  | some c => Except.ok c
  | none => Except.error (PyErr.fileNotFoundError p)

/-- `Path.write_text(c)`: raises `PermissionError` when the path is not
writable, otherwise replaces the contents at `p`. -/
def writeText (fs : FileSystem) (p : String) (c : String) : Except PyErr FileSystem :=
  if fs.writable p then
    Except.ok (FileSystem.mk (fun q => if q = p then some c else fs.contents q) fs.writable)
  else
    Except.error (PyErr.permissionError p)

/-- `Path.unlink()`: raises `FileNotFoundError` when the file is absent
and `PermissionError` when removal is not permitted. -/
def unlink (fs : FileSystem) (p : String) : Except PyErr FileSystem :=
  match fs.contents p with
  | none => Except.error (PyErr.fileNotFoundError p)
  | some _ =>
    if fs.writable p then
      Except.ok (FileSystem.mk (fun q => if q = p then none else fs.contents q) fs.writable)
    else
      Except.error (PyErr.permissionError p)

/-- `CreateOrReplaceFile.backup_path`: the target path with the
`.devbox_backup` extension appended. -/
def backup_path (path : String) : String :=
  path ++ ".devbox_backup"

/-- The `FAILED` result `CreateOrReplaceFile.change` builds in its
exception handlers: the `PermissionError` handler and the generic
handler produce differently-worded messages. -/
def corf_fail_result (path : String) (e : PyErr) : ChangeResult :=
  match e with
  | PyErr.permissionError _ =>
    ⟨ChangeStatus.FAILED, "Permission denied: " ++ path⟩
  | PyErr.fileNotFoundError _ =>
    ⟨ChangeStatus.FAILED, "Failed to create/replace file " ++ path⟩

/-- `CreateOrReplaceFile.change`
(`src/devbox/state_changers/create_or_replace_file.py`, lines 67 to
105): when the target exists, first back up its current contents to
`backup_path`, then write the desired contents; when it does not exist,
just write.  The whole body sits in a try block whose handlers convert
any raised fault into a `FAILED` result; mutations performed before the
fault persist (hence the returned filesystem is the one reached at the
fault point). -/
def corf_change (path contents : String) (fs : FileSystem) : ChangeResult × FileSystem :=
  if pathExists fs path then
    match readText fs path with
    | Except.error e => (corf_fail_result path e, fs)
    | Except.ok orig =>
      match writeText fs (backup_path path) orig with
      | Except.error e => (corf_fail_result path e, fs)
      | Except.ok fs1 =>
        match writeText fs1 path contents with
        | Except.error e => (corf_fail_result path e, fs1)
        | Except.ok fs2 =>
          (⟨ChangeStatus.SUCCESS, "Created/replaced file: " ++ path⟩, fs2)
  else
    match writeText fs path contents with
    | Except.error e => (corf_fail_result path e, fs)
    | Except.ok fs1 =>
      (⟨ChangeStatus.SUCCESS, "Created/replaced file: " ++ path⟩, fs1)

/-- `CreateOrReplaceFile.rollback`
(`src/devbox/state_changers/create_or_replace_file.py`, lines 107 to
140): when no backup file exists, return `WARN` without touching
anything; otherwise restore the target from the backup, delete the
backup, and return `SUCCESS`, converting any raised fault into a
`FAILED` result. -/
def corf_rollback (path : String) (fs : FileSystem) : ChangeResult × FileSystem :=
  if pathExists fs (backup_path path) then
    match readText fs (backup_path path) with
    | Except.error _ =>
      (⟨ChangeStatus.FAILED, "Failed to restore " ++ path ++ " from backup"⟩, fs)
    | Except.ok saved =>
      match writeText fs path saved with
      | Except.error _ =>
        (⟨ChangeStatus.FAILED, "Failed to restore " ++ path ++ " from backup"⟩, fs)
      | Except.ok fs1 =>
        match unlink fs1 (backup_path path) with
        | Except.error _ =>
          (⟨ChangeStatus.FAILED, "Failed to restore " ++ path ++ " from backup"⟩, fs1)
        | Except.ok fs2 =>
          (⟨ChangeStatus.SUCCESS, "Restored file from backup: " ++ path⟩, fs2)
  else
    (⟨ChangeStatus.WARN, "No backup to restore for: " ++ path⟩, fs)

/-- `CreateOrReplaceFile.is_changed`
(`src/devbox/state_changers/create_or_replace_file.py`, lines 142 to
156): false when the file is absent, otherwise whether its contents
equal the desired contents. -/
def corf_is_changed (path contents : String) (fs : FileSystem) : Bool :=
  match fs.contents path with
  | none => false
  | some c => c == contents

/-- `CreateOrReplaceFile` packaged in the interface the engine consumes. -/
def corfChanger (path contents : String) : Changer FileSystem where
  is_changed := corf_is_changed path contents
  change := corf_change path contents
  rollback := corf_rollback path

lemma backup_path_ne (p : String) : backup_path p ≠ p := by
  intro h
  have hl := congrArg String.length h
  have h14 : (".devbox_backup").length = 14 := rfl
  rw [backup_path, String.length_append, h14] at hl
  omega

lemma writeText_ok_writable {fs fs' : FileSystem} {p c : String}
    (h : writeText fs p c = Except.ok fs') : fs'.writable = fs.writable := by
  unfold writeText at h
  by_cases hw : fs.writable p
  · simp [hw] at h
    rw [← h]
  · simp [hw] at h

lemma writeText_ok_self {fs fs' : FileSystem} {p c : String}
    (h : writeText fs p c = Except.ok fs') : fs'.contents p = some c := by
  unfold writeText at h
  by_cases hw : fs.writable p
  · simp [hw] at h
    rw [← h]
    simp
  · simp [hw] at h

lemma writeText_ok_other {fs fs' : FileSystem} {p c q : String}
    (h : writeText fs p c = Except.ok fs') (hq : q ≠ p) :
    fs'.contents q = fs.contents q := by
  unfold writeText at h
  by_cases hw : fs.writable p
  · simp [hw] at h
    rw [← h]
    simp [hq]
  · simp [hw] at h

lemma writeText_of_writable {fs : FileSystem} {p : String} (c : String)
    (hw : fs.writable p = true) :
    writeText fs p c =
      Except.ok (FileSystem.mk (fun q => if q = p then some c else fs.contents q) fs.writable) := by
  simp [writeText, hw]

/-- If `CreateOrReplaceFile.change` reports `SUCCESS`, the target file
now holds the desired contents. -/
lemma corf_change_success_contents (path contents : String) (fs : FileSystem)
    (h : (corf_change path contents fs).1.status = ChangeStatus.SUCCESS) :
    (corf_change path contents fs).2.contents path = some contents := by
  unfold corf_change at h ⊢
  cases hex : pathExists fs path with
  | true =>
    simp only [hex, if_true] at h ⊢
    cases hr : readText fs path with
    | error e =>
      rw [hr] at h
      cases e <;> simp [corf_fail_result] at h
    | ok orig =>
      rw [hr] at h
      dsimp only at h
      dsimp only
      cases hw1 : writeText fs (backup_path path) orig with
      | error e =>
        rw [hw1] at h
        cases e <;> simp [corf_fail_result] at h
      | ok fs1 =>
        rw [hw1] at h
        dsimp only at h
        dsimp only
        cases hw2 : writeText fs1 path contents with
        | error e =>
          rw [hw2] at h
          cases e <;> simp [corf_fail_result] at h
        | ok fs2 => exact writeText_ok_self hw2
  | false =>
    simp only [hex, Bool.false_eq_true, if_false] at h ⊢
    cases hw : writeText fs path contents with
    | error e =>
      rw [hw] at h
      cases e <;> simp [corf_fail_result] at h
    | ok fs1 => exact writeText_ok_self hw

/-- C3: for the file-writing changer, if `change` returns `SUCCESS` then
an immediately subsequent `is_changed()` returns true, and a subsequent
`apply_changes` run over that changer classifies it as skipped without
calling `change` again: the counts are `succeeded = 0, failed = 0,
skipped = 1`, the world is untouched, and the recorded trace is a single
skip event (so `change` was not invoked). -/
theorem C3_success_implies_skipped (path contents : String) (fs : FileSystem)
    (h : (corf_change path contents fs).1.status = ChangeStatus.SUCCESS) :
    corf_is_changed path contents (corf_change path contents fs).2 = true ∧
      apply_changes [corfChanger path contents] (corf_change path contents fs).2 =
        (⟨0, 0, 1⟩, (corf_change path contents fs).2) ∧
      (applyTrace [corfChanger path contents] (corf_change path contents fs).2).1 =
        [Event.skipped] := by
  have hc := corf_change_success_contents path contents fs h
  have hic : corf_is_changed path contents (corf_change path contents fs).2 = true := by
    simp [corf_is_changed, hc]
  refine ⟨hic, ?_, ?_⟩
  · simp [apply_changes, applyChangesAux, corfChanger, hic]
  · simp [applyTrace, applyStep, corfChanger, hic]

/-- A filesystem with no files where every path is writable. -/
def fsEmpty : FileSystem where
  contents := fun _ => none
  writable := fun _ => true

/-- Witness for C3 at a concrete input: creating `f` with contents `x`
in an empty writable filesystem succeeds, after which `is_changed` is
true and a rerun of `apply_changes` skips the changer. -/
theorem C3_success_implies_skipped_witness :
    corf_is_changed "f" "x" (corf_change "f" "x" fsEmpty).2 = true ∧
      apply_changes [corfChanger "f" "x"] (corf_change "f" "x" fsEmpty).2 =
        (⟨0, 0, 1⟩, (corf_change "f" "x" fsEmpty).2) ∧
      (applyTrace [corfChanger "f" "x"] (corf_change "f" "x" fsEmpty).2).1 =
        [Event.skipped] :=
  C3_success_implies_skipped "f" "x" fsEmpty (by decide)

/-- A completed `subprocess.run` outcome: exit code and captured
output. -/
structure RunResult where
  returncode : Int
  stdout : String
  stderr : String
deriving DecidableEq, Repr

/-- The environment a `HomeBrew` changer runs in: what launching each
command line yields.  `none` models a failure to launch the subprocess
at all (e.g. the `brew` binary is missing), which `subprocess.run`
raises as `FileNotFoundError`. -/
structure ProcWorld where
  run : List String → Option RunResult

/-- `HomeBrew.change` (`src/devbox/state_changers/home_brew.py`, lines
54 to 89): run `brew install`, returning `FAILED` on a non-zero exit
code and `SUCCESS` otherwise.  The call to `subprocess.run` is not
inside any try block, so a launch failure propagates out of `change`
uncaught (`Except.error`). -/
def home_brew_change (pkg : String) (w : ProcWorld) : Except PyErr ChangeResult :=
  match w.run ["brew", "install", pkg] with
  | none => Except.error (PyErr.fileNotFoundError "brew")
  | some r =>
    if r.returncode ≠ 0 then
      Except.ok ⟨ChangeStatus.FAILED, "Failed to install " ++ pkg ++ ": " ++ r.stderr⟩
    else
      Except.ok ⟨ChangeStatus.SUCCESS, "Successfully installed Homebrew package: " ++ pkg⟩

/-- `HomeBrew.rollback` (`src/devbox/state_changers/home_brew.py`,
lines 91 to 121): run `brew uninstall` unconditionally — there is no
check that anything was applied first — returning `FAILED` on a
non-zero exit code; a launch failure propagates uncaught. -/
def home_brew_rollback (pkg : String) (w : ProcWorld) : Except PyErr ChangeResult :=
  match w.run ["brew", "uninstall", pkg] with
  | none => Except.error (PyErr.fileNotFoundError "brew")
  | some r =>
    if r.returncode ≠ 0 then
      Except.ok ⟨ChangeStatus.FAILED, "Failed to uninstall " ++ pkg ++ ": " ++ r.stderr⟩
    else
      Except.ok ⟨ChangeStatus.SUCCESS, "Successfully uninstalled Homebrew package: " ++ pkg⟩

/-- `HomeBrew.is_changed`: run `brew list` and report whether it exited
with code 0; a launch failure propagates uncaught. -/
def home_brew_is_changed (pkg : String) (w : ProcWorld) : Except PyErr Bool :=
  match w.run ["brew", "list", pkg] with
  | none => Except.error (PyErr.fileNotFoundError "brew")
  | some r => Except.ok (r.returncode == 0)

/-- `HomeBrew.description` (quotes around the package name omitted). -/
def home_brew_description (pkg : String) : String :=
  "Installs the " ++ pkg ++ " package via Homebrew"

/-- `K9s.change` forwards to the wrapped `HomeBrew` changer for the
`k9s` package (`src/devbox/state_changers/k9s.py`). -/
def k9s_change (w : ProcWorld) : Except PyErr ChangeResult :=
  home_brew_change "k9s" w

/-- `K9s.description`. -/
def k9s_description : String :=
  "Installs K9S Kubernetes CLI via Homebrew"

/-- `ClaudeCode.change` forwards to the wrapped `HomeBrew` changer for
the `claude-code` package (`src/devbox/state_changers/claude_code.py`). -/
def claude_code_change (w : ProcWorld) : Except PyErr ChangeResult :=
  home_brew_change "claude-code" w

/-- `ClaudeCode.description`. -/
def claude_code_description : String :=
  "Installs Claude Code CLI via Homebrew"

/-- The `StateChanger` operations as Python actually dispatches them:
each operation may raise (an `Except.error` escaping the method) instead
of returning a value. -/
structure ChangerE (σ : Type) where
  is_changed : σ → Except PyErr Bool
  change : σ → Except PyErr (ChangeResult × σ)
  rollback : σ → Except PyErr (ChangeResult × σ)

/-- The `ChangeEngine.apply_changes` loop over possibly-raising
changers: the loop body wraps no call in a try block, so a raised fault
escapes `apply_changes` and ends the run. -/
def applyChangesAuxE {σ : Type} : List (ChangerE σ) → σ → Nat → Nat → Nat → Except PyErr (Counts × σ)
  | [], s, a, b, c => Except.ok (⟨a, b, c⟩, s)
  | ch :: rest, s, a, b, c =>
    match ch.is_changed s with
    | Except.error e => Except.error e
    | Except.ok true => applyChangesAuxE rest s a b (c + 1)
    | Except.ok false =>
      match ch.change s with
      | Except.error e => Except.error e
      | Except.ok rs =>
        match rs.1.status with
        | ChangeStatus.SUCCESS => applyChangesAuxE rest rs.2 (a + 1) b c
        | ChangeStatus.FAILED => applyChangesAuxE rest rs.2 a (b + 1) c
        | ChangeStatus.WARN => applyChangesAuxE rest rs.2 a b c

/-- `ChangeEngine.apply_changes` over possibly-raising changers. -/
def apply_changesE {σ : Type} (cs : List (ChangerE σ)) (s : σ) : Except PyErr (Counts × σ) :=
  applyChangesAuxE cs s 0 0 0

/-- A changer none of whose operations ever raises, seen at the
possibly-raising interface. -/
def liftChanger {σ : Type} (c : Changer σ) : ChangerE σ where
  is_changed := fun s => Except.ok (c.is_changed s)
  change := fun s => Except.ok (c.change s)
  rollback := fun s => Except.ok (c.rollback s)

lemma applyChangesAuxE_lift {σ : Type} (cs : List (Changer σ)) :
    ∀ (s : σ) (a b c : Nat),
      applyChangesAuxE (cs.map liftChanger) s a b c = Except.ok (applyChangesAux cs s a b c) := by
  induction cs with
  | nil => intro s a b c; simp [applyChangesAuxE, applyChangesAux]
  | cons ch rest ih =>
    intro s a b c
    cases hic : ch.is_changed s with
    | true =>
      simp [applyChangesAuxE, applyChangesAux, liftChanger, hic, ih]
    | false =>
      cases hst : (ch.change s).1.status <;>
        simp [applyChangesAuxE, applyChangesAux, liftChanger, hic, hst, ih]

lemma corf_fail_result_status (path : String) (e : PyErr) :
    (corf_fail_result path e).status = ChangeStatus.FAILED := by
  cases e <;> rfl

/-- C2 (amended): fault handling is uneven across the changers.
`CreateOrReplaceFile.change` converts faults (e.g. a permission error on
the target) into a `FAILED` result; `HomeBrew.change` propagates a
subprocess launch failure uncaught; the engine wraps no changer call in
a try block, so a fault raised by a changer escapes `apply_changes`
and ends the run; and when every changer returns results normally the
engine raises nothing and only counts and logs. -/
theorem C2_fault_handling_amended {σ : Type} (path contents : String) (fs : FileSystem)
    (pkg : String) (w : ProcWorld) (ch : ChangerE σ) (rest : List (ChangerE σ)) (s : σ)
    (e : PyErr) (cs : List (Changer σ)) (s0 : σ) :
    (fs.writable path = false → (corf_change path contents fs).1.status = ChangeStatus.FAILED) ∧
      (w.run ["brew", "install", pkg] = none →
        home_brew_change pkg w = Except.error (PyErr.fileNotFoundError "brew")) ∧
      (ch.is_changed s = Except.error e →
        apply_changesE (ch :: rest) s = Except.error e) ∧
      apply_changesE (cs.map liftChanger) s0 = Except.ok (apply_changes cs s0) := by
  refine ⟨?_, ?_, ?_, ?_⟩
  · intro hw
    unfold corf_change
    cases hc : fs.contents path with
    | none =>
      simp [pathExists, hc, writeText, hw, corf_fail_result_status]
    | some orig =>
      simp only [pathExists, hc, Option.isSome_some, if_true, readText]
      cases hwb : fs.writable (backup_path path) with
      | false =>
        simp [writeText, hwb, corf_fail_result_status]
      | true =>
        simp [writeText, hwb, hw, corf_fail_result_status]
  · intro h
    simp [home_brew_change, h]
  · intro h
    simp [apply_changesE, applyChangesAuxE, h]
  · exact applyChangesAuxE_lift cs s0 0 0 0

/-- A filesystem where nothing is writable. -/
def fsReadOnly : FileSystem where
  contents := fun _ => none
  writable := fun _ => false

/-- An environment in which no subprocess can be launched (the `brew`
binary is absent). -/
def wNoBrew : ProcWorld where
  run := fun _ => none

/-- A changer all of whose operations raise, as `HomeBrew` does in an
environment without `brew`. -/
def errChangerE : ChangerE Unit where
  is_changed := fun _ => Except.error (PyErr.fileNotFoundError "brew")
  change := fun _ => Except.error (PyErr.fileNotFoundError "brew")
  rollback := fun _ => Except.error (PyErr.fileNotFoundError "brew")

/-- Witness for C2 (amended) at concrete inputs. -/
theorem C2_fault_handling_witness :
    (corf_change "f" "x" fsReadOnly).1.status = ChangeStatus.FAILED ∧
      home_brew_change "k9s" wNoBrew = Except.error (PyErr.fileNotFoundError "brew") ∧
      apply_changesE [errChangerE] () = Except.error (PyErr.fileNotFoundError "brew") ∧
      apply_changesE ([warnOnlyChanger].map liftChanger) () =
        Except.ok (apply_changes [warnOnlyChanger] ()) :=
  ⟨(C2_fault_handling_amended "f" "x" fsReadOnly "k9s" wNoBrew errChangerE [] ()
      (PyErr.fileNotFoundError "brew") [warnOnlyChanger] ()).1 rfl,
    (C2_fault_handling_amended "f" "x" fsReadOnly "k9s" wNoBrew errChangerE [] ()
      (PyErr.fileNotFoundError "brew") [warnOnlyChanger] ()).2.1 rfl,
    (C2_fault_handling_amended "f" "x" fsReadOnly "k9s" wNoBrew errChangerE [] ()
      (PyErr.fileNotFoundError "brew") [warnOnlyChanger] ()).2.2.1 rfl,
    (C2_fault_handling_amended "f" "x" fsReadOnly "k9s" wNoBrew errChangerE [] ()
      (PyErr.fileNotFoundError "brew") [warnOnlyChanger] ()).2.2.2⟩

/-- C2 is false as stated: in an environment where the `brew` binary
cannot be launched, `HomeBrew.change` propagates the launch failure to
its caller instead of converting it into a `ChangeResult`. -/
theorem C2_launch_failure_propagates :
    home_brew_change "k9s" wNoBrew = Except.error (PyErr.fileNotFoundError "brew") := rfl

/-- An environment in which the `k9s` package is not installed:
`brew list k9s` and `brew uninstall k9s` both exit non-zero. -/
def wNotInstalled : ProcWorld where
  run := fun cmd =>
    if cmd = ["brew", "uninstall", "k9s"] then
      some ⟨1, "", "Error - no such keg"⟩
    else if cmd = ["brew", "list", "k9s"] then
      some ⟨1, "", ""⟩
    else
      none

/-- C6 (amended): `CreateOrReplaceFile.rollback` with no backup recorded
returns `WARN` and leaves the filesystem untouched; but
`HomeBrew.rollback` invokes `brew uninstall` unconditionally and returns
`FAILED` whenever that exits non-zero — as it does when the package was
never installed. -/
theorem C6_rollback_warn_amended (path : String) (fs : FileSystem) (pkg : String)
    (w : ProcWorld) (r : RunResult) :
    (pathExists fs (backup_path path) = false →
      corf_rollback path fs = (⟨ChangeStatus.WARN, "No backup to restore for: " ++ path⟩, fs)) ∧
      (w.run ["brew", "uninstall", pkg] = some r → r.returncode ≠ 0 →
        home_brew_rollback pkg w =
          Except.ok ⟨ChangeStatus.FAILED, "Failed to uninstall " ++ pkg ++ ": " ++ r.stderr⟩) := by
  constructor
  · intro h
    simp [corf_rollback, h]
  · intro hrun hrc
    simp [home_brew_rollback, hrun, hrc]

/-- Witness for C6 (amended) at concrete inputs. -/
theorem C6_rollback_warn_witness :
    corf_rollback "f" fsEmpty =
        (⟨ChangeStatus.WARN, "No backup to restore for: " ++ "f"⟩, fsEmpty) ∧
      home_brew_rollback "k9s" wNotInstalled =
        Except.ok ⟨ChangeStatus.FAILED, "Failed to uninstall " ++ "k9s" ++ ": " ++ "Error - no such keg"⟩ :=
  ⟨(C6_rollback_warn_amended "f" fsEmpty "k9s" wNotInstalled ⟨1, "", "Error - no such keg"⟩).1 rfl,
    (C6_rollback_warn_amended "f" fsEmpty "k9s" wNotInstalled ⟨1, "", "Error - no such keg"⟩).2
      rfl (by decide)⟩

/-- C6 is false as stated: in an environment where `k9s` was never
installed (so there is nothing to roll back, and `is_changed` reports
false), `HomeBrew.rollback` returns a `FAILED` result, not `WARN`. -/
theorem C6_homebrew_rollback_failed :
    home_brew_is_changed "k9s" wNotInstalled = Except.ok false ∧
      home_brew_rollback "k9s" wNotInstalled =
        Except.ok ⟨ChangeStatus.FAILED, "Failed to uninstall k9s: Error - no such keg"⟩ := by
  constructor <;> rfl

/-- C7 (amended): for the file-writing changer, when the target file
exists before the apply (and the target and backup paths are writable),
the sequence change-then-rollback-then-isChanged returns the resource to
its pre-apply state: both calls succeed, the original contents are
restored byte-for-byte from the backup, and `is_changed` afterwards
reports the same value as before the apply.  (When the file did not
exist before the apply this fails; see C10.) -/
theorem C7_apply_rollback_restores (path contents orig : String) (fs : FileSystem)
    (hc : fs.contents path = some orig) (hwp : fs.writable path = true)
    (hwb : fs.writable (backup_path path) = true) :
    (corf_change path contents fs).1.status = ChangeStatus.SUCCESS ∧
      (corf_rollback path (corf_change path contents fs).2).1.status = ChangeStatus.SUCCESS ∧
      (corf_rollback path (corf_change path contents fs).2).2.contents path = some orig ∧
      corf_is_changed path contents (corf_rollback path (corf_change path contents fs).2).2 =
        corf_is_changed path contents fs := by
  have hbp : backup_path path ≠ path := backup_path_ne path
  have hpb : path ≠ backup_path path := Ne.symm hbp
  simp [corf_change, corf_rollback, corf_is_changed, pathExists, readText, writeText, unlink,
    hc, hwp, hwb, hbp, hpb]

/-- A filesystem holding one file `f` with contents `old`, with every
path writable. -/
def fsOneFile : FileSystem where
  contents := fun p => if p = "f" then some "old" else none
  writable := fun _ => true

/-- Witness for C7 (amended) at a concrete input. -/
theorem C7_apply_rollback_restores_witness :
    (corf_change "f" "new" fsOneFile).1.status = ChangeStatus.SUCCESS ∧
      (corf_rollback "f" (corf_change "f" "new" fsOneFile).2).1.status = ChangeStatus.SUCCESS ∧
      (corf_rollback "f" (corf_change "f" "new" fsOneFile).2).2.contents "f" = some "old" ∧
      corf_is_changed "f" "new" (corf_rollback "f" (corf_change "f" "new" fsOneFile).2).2 =
        corf_is_changed "f" "new" fsOneFile :=
  C7_apply_rollback_restores "f" "new" "old" fsOneFile rfl rfl rfl

/-- C7 is false as stated: starting from a filesystem in which the
target file does not exist, the change-then-rollback-then-isChanged
sequence does not return to the pre-apply state — `is_changed` was false
before the apply but is still true after the rollback (the created file
is left in place). -/
theorem C7_missing_file_not_restored :
    corf_is_changed "f" "new" fsEmpty = false ∧
      corf_is_changed "f" "new" (corf_rollback "f" (corf_change "f" "new" fsEmpty).2).2 = true := by
  decide

/-- C10 (amended): when the target file does not exist and no stale
backup file is present, `CreateOrReplaceFile.change` creates the file
with the desired contents and records no backup, and a subsequent
rollback returns `WARN` and leaves the newly created file in place with
its new contents (the filesystem is returned unchanged: the pre-apply
non-existent state is not restored). -/
theorem C10_create_no_backup_amended (path contents : String) (fs : FileSystem)
    (hnof : fs.contents path = none) (hnob : fs.contents (backup_path path) = none)
    (hw : fs.writable path = true) :
    (corf_change path contents fs).1.status = ChangeStatus.SUCCESS ∧
      (corf_change path contents fs).2.contents path = some contents ∧
      (corf_change path contents fs).2.contents (backup_path path) = none ∧
      corf_rollback path (corf_change path contents fs).2 =
        (⟨ChangeStatus.WARN, "No backup to restore for: " ++ path⟩,
          (corf_change path contents fs).2) := by
  have hbp : backup_path path ≠ path := backup_path_ne path
  simp [corf_change, corf_rollback, pathExists, readText, writeText, hnof, hnob, hw, hbp]

/-- Witness for C10 (amended) at a concrete input. -/
theorem C10_create_no_backup_witness :
    (corf_change "f" "new" fsEmpty).1.status = ChangeStatus.SUCCESS ∧
      (corf_change "f" "new" fsEmpty).2.contents "f" = some "new" ∧
      (corf_change "f" "new" fsEmpty).2.contents (backup_path "f") = none ∧
      corf_rollback "f" (corf_change "f" "new" fsEmpty).2 =
        (⟨ChangeStatus.WARN, "No backup to restore for: " ++ "f"⟩,
          (corf_change "f" "new" fsEmpty).2) :=
  C10_create_no_backup_amended "f" "new" fsEmpty rfl rfl rfl

/-- A filesystem with no target file but a stale backup file left at the
backup path, with every path writable. -/
def fsStaleBackup : FileSystem where
  contents := fun p => if p = "f.devbox_backup" then some "old" else none
  writable := fun _ => true

/-- C10 is false as stated: if a stale backup file is already present,
`change` on a non-existent target still records no backup of its own,
but the subsequent rollback finds the stale backup, returns `SUCCESS`
(not `WARN`), and overwrites the newly created file with the stale
backup contents instead of leaving it in place. -/
theorem C10_stale_backup_restored :
    (corf_change "f" "new" fsStaleBackup).2.contents "f.devbox_backup" = some "old" ∧
      (corf_rollback "f" (corf_change "f" "new" fsStaleBackup).2).1.status =
        ChangeStatus.SUCCESS ∧
      (corf_rollback "f" (corf_change "f" "new" fsStaleBackup).2).2.contents "f" = some "old" := by
  decide

/-- Split a character list at commas, as Python `str.split(",")` does:
every comma is a separator and empty pieces are kept. -/
def splitCommaAux : List Char → List Char → List String
  | [], acc => [String.mk acc.reverse]
  | c :: cs, acc =>
    if c = ',' then String.mk acc.reverse :: splitCommaAux cs []
    else splitCommaAux cs (c :: acc)

/-- Python `str.strip()` restricted to the space character: drop leading
and trailing spaces. -/
def stripName (s : String) : String :=
  String.mk (((s.toList.dropWhile fun c => c == ' ').reverse.dropWhile fun c => c == ' ').reverse)

/-- The name-list parsing shared by `cmd_apply` and `cmd_rollback` in
`src/main.py`: split the comma-separated argument and strip each piece. -/
def parse_names (names : String) : List String :=
  (splitCommaAux names.toList []).map stripName

/-- The registration loop of `cmd_apply` (`src/main.py`, lines 15 to
29): resolve each requested name against the registry of known changers
(`container.main_changes()`), exiting at the first unknown name; the
loop only collects changers, it runs none of them. -/
def collectChangers {σ : Type} (changes : List (String × Changer σ)) :
    List String → Option (List (Changer σ))
  | [] => some []
  | n :: rest =>
    match changes.lookup n with
    | none => none
    | some c =>
      match collectChangers changes rest with
      | none => none
      | some cs => some (c :: cs)

/-- What a CLI `apply` invocation did: `sys.exit` with a code before any
change ran, or a completed `apply_changes` run. -/
inductive ApplyOutcome (σ : Type) where
  | exited (code : Nat) (s : σ)
  | completed (counts : Counts) (s : σ)
deriving DecidableEq, Repr

/-- What a CLI `rollback` invocation did: `sys.exit` with a code, or a
normal finish; in both cases the world as left behind. -/
inductive RollbackOutcome (σ : Type) where
  | exited (code : Nat) (s : σ)
  | finished (s : σ)
deriving DecidableEq, Repr

/-- `cmd_apply` from `src/main.py`: an unknown requested name exits with
code 1 before `apply_changes` runs (registration mutates nothing, so
the world is returned unchanged); otherwise the registered changers are
applied in the order given. -/
def cmd_apply {σ : Type} (changes : List (String × Changer σ)) (names : String) (s : σ) :
    ApplyOutcome σ :=
  match collectChangers changes (parse_names names) with
  | none => ApplyOutcome.exited 1 s
  | some cs => ApplyOutcome.completed (apply_changes cs s).1 (apply_changes cs s).2

/-- The per-name loop of `cmd_rollback` (`src/main.py`, lines 32 to 50):
each requested name is resolved and — when `is_changed()` holds —
rolled back immediately, before later names are even looked up; an
unknown name exits with code 1 at that point, keeping every mutation the
earlier rollbacks already made. -/
def cmd_rollback_loop {σ : Type} (changes : List (String × Changer σ)) :
    List String → σ → RollbackOutcome σ
  | [], s => RollbackOutcome.finished s
  | n :: rest, s =>
    match changes.lookup n with
    | none => RollbackOutcome.exited 1 s
    | some c =>
      if c.is_changed s then
        cmd_rollback_loop changes rest (c.rollback s).2
      else
        cmd_rollback_loop changes rest s

/-- `cmd_rollback` from `src/main.py`. -/
def cmd_rollback {σ : Type} (changes : List (String × Changer σ)) (names : String) (s : σ) :
    RollbackOutcome σ :=
  cmd_rollback_loop changes (parse_names names) s

lemma collectChangers_eq_none {σ : Type} (changes : List (String × Changer σ))
    (l : List String) (h : l.any (fun n => (changes.lookup n).isNone) = true) :
    collectChangers changes l = none := by
  induction l with
  | nil => simp at h
  | cons n rest ih =>
    simp only [List.any_cons, Bool.or_eq_true] at h
    rcases h with h | h
    · have hn : changes.lookup n = none := Option.isNone_iff_eq_none.mp h
      simp [collectChangers, hn]
    · cases hl : changes.lookup n with
      | none => simp [collectChangers, hl]
      | some c => simp [collectChangers, hl, ih h]

lemma cmd_rollback_loop_exits {σ : Type} (changes : List (String × Changer σ))
    (l : List String) (h : l.any (fun n => (changes.lookup n).isNone) = true) :
    ∀ s : σ, ∃ s2, cmd_rollback_loop changes l s = RollbackOutcome.exited 1 s2 := by
  induction l with
  | nil => simp at h
  | cons n rest ih =>
    intro s
    simp only [List.any_cons, Bool.or_eq_true] at h
    cases hl : changes.lookup n with
    | none => exact ⟨s, by simp [cmd_rollback_loop, hl]⟩
    | some c =>
      have hrest : rest.any (fun n => (changes.lookup n).isNone) = true := by
        rcases h with h | h
        · rw [hl] at h
          simp at h
        · exact h
      by_cases hic : c.is_changed s
      · obtain ⟨s2, hs2⟩ := ih hrest (c.rollback s).2
        exact ⟨s2, by simp [cmd_rollback_loop, hl, hic, hs2]⟩
      · obtain ⟨s2, hs2⟩ := ih hrest s
        exact ⟨s2, by simp [cmd_rollback_loop, hl, hic, hs2]⟩

/-- C4 (amended): a CLI `apply` or `rollback` invocation whose
comma-separated name list contains an unknown name exits with code 1.
For `apply` this happens before any changer runs, so the world is
returned unchanged; for `rollback`, however, the rollbacks of known
names listed before the first unknown one have already executed when the
process exits (see the counterexample), so only the exit code — not the
no-mutation part — holds there. -/
theorem C4_unknown_name_exits {σ : Type} (changes : List (String × Changer σ))
    (names : String) (s : σ)
    (h : (parse_names names).any (fun n => (changes.lookup n).isNone) = true) :
    cmd_apply changes names s = ApplyOutcome.exited 1 s ∧
      ∃ s2, cmd_rollback changes names s = RollbackOutcome.exited 1 s2 := by
  constructor
  · simp [cmd_apply, collectChangers_eq_none changes (parse_names names) h]
  · exact cmd_rollback_loop_exits changes (parse_names names) h s

/-- A changer (over a counter world) that reports itself applied and
whose `change` and `rollback` each bump the counter, making any
mutation visible in the final world. -/
def countingChanger : Changer Nat where
  is_changed := fun _ => true
  change := fun n => (⟨ChangeStatus.SUCCESS, "changed"⟩, n + 1)
  rollback := fun n => (⟨ChangeStatus.SUCCESS, "rolled back"⟩, n + 1)

/-- Witness for C4 (amended) at a concrete input: the registry knows
only `k9s`, and the request names `k9s,bogus`. -/
theorem C4_unknown_name_exits_witness :
    cmd_apply [("k9s", countingChanger)] "k9s,bogus" 0 = ApplyOutcome.exited 1 0 ∧
      ∃ s2, cmd_rollback [("k9s", countingChanger)] "k9s,bogus" 0 =
        RollbackOutcome.exited 1 s2 :=
  C4_unknown_name_exits [("k9s", countingChanger)] "k9s,bogus" 0 (by decide)

/-- C4 is false as stated: on `rollback k9s,bogus` against a registry
knowing only `k9s`, the process does exit with code 1 on the unknown
name, but the rollback of `k9s` has already executed by then — the
world was mutated from `0` to `1` before the exit. -/
theorem C4_rollback_mutates_before_exit :
    cmd_rollback [("k9s", countingChanger)] "k9s,bogus" 0 = RollbackOutcome.exited 1 1 := by
  decide

/-- The `StateChanger` parent/child hierarchy
(`src/devbox/state_changer.py`): every changer has a derived name and an
optional parent reference; the ancestor chain is finite. -/
inductive ChangerNode where
  | root (name : String)
  | child (name : String) (parent : ChangerNode)

/-- `StateChanger.get_name` at the level C8 is stated: the node's own
name (in the source it is derived once from the class name by
`_camel_to_snake`). -/
def get_name : ChangerNode → String
  | ChangerNode.root n => n
  | ChangerNode.child n _ => n

/-- The `parent` property: `none` for a root changer. -/
def get_parent : ChangerNode → Option ChangerNode
  | ChangerNode.root _ => none
  | ChangerNode.child _ p => some p

/-- `StateChanger.get_path` (`src/devbox/state_changer.py`, lines 54 to
63): the parent's path, a dot, and the own name when a parent is set;
the own name alone otherwise. -/
def get_path : ChangerNode → String
  | ChangerNode.root n => n
  | ChangerNode.child n p => get_path p ++ "." ++ n

/-- C8: for every state changer, if a parent is set its path equals the
parent's path concatenated with a dot and its own name, and if no parent
is set its path equals its name. -/
theorem C8_path_derivation (c : ChangerNode) :
    (∀ p, get_parent c = some p → get_path c = get_path p ++ "." ++ get_name c) ∧
      (get_parent c = none → get_path c = get_name c) := by
  cases c with
  | root n => simp [get_parent, get_path, get_name]
  | child n p => simp [get_parent, get_path, get_name]

/-- Witness for C8 at a concrete hierarchy: `home_brew` wrapped by the
composite `claude_code`, as built by `ClaudeCode.__init__`. -/
theorem C8_path_derivation_witness :
    get_path (ChangerNode.child "home_brew" (ChangerNode.root "claude_code")) =
      get_path (ChangerNode.root "claude_code") ++ "." ++
        get_name (ChangerNode.child "home_brew" (ChangerNode.root "claude_code")) :=
  (C8_path_derivation (ChangerNode.child "home_brew" (ChangerNode.root "claude_code"))).1
    (ChangerNode.root "claude_code") rfl

/-- The abstract methods `StateChanger` declares
(`src/devbox/state_changer.py`): a concrete subclass must override all
of them before Python lets it be instantiated. -/
def state_changer_abstract_methods : List String :=
  ["get_locks", "change", "rollback", "is_changed", "description"]

/-- The methods the class body of `CreateOrReplaceFile` defines
(`src/devbox/state_changers/create_or_replace_file.py`). -/
def create_or_replace_file_methods : List String :=
  ["__init__", "backup_path", "get_locks", "change", "rollback", "is_changed"]

/-- The methods the class body of `HomeBrew` defines. -/
def home_brew_methods : List String :=
  ["__init__", "get_locks", "change", "rollback", "is_changed", "description"]

/-- The methods the class body of `K9s` defines. -/
def k9s_methods : List String :=
  ["__init__", "get_locks", "change", "rollback", "is_changed", "description"]

/-- The methods the class body of `ClaudeCode` defines. -/
def claude_code_methods : List String :=
  ["__init__", "get_locks", "change", "rollback", "is_changed", "description"]

/-- Python ABC instantiation check: a subclass of `StateChanger` can be
constructed iff it overrides every declared abstract method; otherwise
construction raises `TypeError`. -/
def can_instantiate (defined : List String) : Bool :=
  state_changer_abstract_methods.all (fun m => defined.contains m)

/-- C9: `CreateOrReplaceFile` does not implement the abstract
`description()` method, so — unlike `HomeBrew`, `K9s` and `ClaudeCode`,
whose `description()` each returns a static string — it cannot even be
constructed: Python raises `TypeError` at instantiation, although
`container.py` exposes a factory for it and `cmd_list` calls
`description()` on every registry entry. -/
theorem C9_description_missing :
    ("description" ∈ state_changer_abstract_methods ∧
        "description" ∉ create_or_replace_file_methods ∧
        can_instantiate create_or_replace_file_methods = false) ∧
      can_instantiate home_brew_methods = true ∧
      can_instantiate k9s_methods = true ∧
      can_instantiate claude_code_methods = true ∧
      home_brew_description "k9s" = "Installs the k9s package via Homebrew" ∧
      k9s_description = "Installs K9S Kubernetes CLI via Homebrew" ∧
      claude_code_description = "Installs Claude Code CLI via Homebrew" := by
  decide

end DevBox
